import Mathlib

/-!
Verification of dropseed (MeadowlarkDAW): a shallow embedding of the audio
plugin engine's core data structures and operations, with theorems checking
the natural-language specification against the code.

Modelling conventions:
* `f32`/`f64` audio samples and `f64` parameter values are carried as `Int`.
  The embedded code only copies samples, fills them with zero, and compares
  them against zero; no floating-point arithmetic occurs in any embedded
  function, so a discrete carrier with a distinguished `0` is faithful.
* Machine integers (`u64` constant masks, `u32` state words) are `Nat` with
  explicit bounds where overflow could matter.
* Shared, interior-mutable buffers (`SharedBuffer`) become plain values and
  the mutating methods become functions returning the updated value.
* Logging is modelled, where a claim mentions it, as a `Bool` in the result.
-/

/-- Audio samples (`f32` in the source) are modelled as `Int`: the embedded
code only copies them, zero-fills them and compares them to `0.0`. -/
abbrev Sample := Int

/-! ## SharedBuffer (graph/shared_pool.rs, dropseed_core)

Modelled from the spec: the refcounted `SharedBuffer<f32>` itself lives in
`dropseed_core` / `src/graph/shared_pool.rs`, which are not part of the
sources given; per spec §3 each buffer has a fixed capacity `max_frames`,
sample storage, and a per-buffer *constant* flag, and "clearing" a buffer
zeroes the first `frames` samples. -/

/-- One audio channel buffer: sample data (its length is the buffer's
`max_frames` capacity) and the per-buffer constant flag. -/
structure SharedBufferF32 where
  data : List Sample
  is_constant : Bool
  deriving DecidableEq, Repr, Inhabited

/-- `SharedBuffer::max_frames`. -/
def SharedBufferF32.max_frames (b : SharedBufferF32) : Nat :=
  b.data.length

/-- `SharedBuffer::set_constant`. -/
def SharedBufferF32.set_constant (b : SharedBufferF32) (c : Bool) : SharedBufferF32 :=
  { b with is_constant := c }

/-- `SharedBuffer::clear_f32(frames)`: zero the first `frames` samples. -/
def SharedBufferF32.clear_f32 (b : SharedBufferF32) (frames : Nat) : SharedBufferF32 :=
  { b with data := List.replicate frames 0 ++ b.data.drop frames }

/-! ## C7 — EventQueue::push
(src/graph/plugin/events/event_queue.rs lines 22-29 and
src/plugin/events/event_queue.rs lines 33-40; both bodies are identical:
warn if `len() >= capacity`, then `Vec::push` the event unconditionally.) -/

/-- `EventQueue`: a vector of events.  `capacity` is the `Vec`'s *current*
capacity (`self.events.capacity()`): it starts at the value passed to
`Vec::with_capacity` and grows whenever a push finds the `Vec` full.  `E`
is the element type (`ProcEvent` in one copy, `AllocatedEvent` in the
other). -/
structure EventQueue (E : Type) where
  events : List E
  capacity : Nat
  deriving DecidableEq, Repr

/-- `EventQueue::new(capacity)`: `Vec::with_capacity(capacity)`. -/
def EventQueue.new (E : Type) (capacity : Nat) : EventQueue E :=
  { events := [], capacity := capacity }

/-- `EventQueue::len`. -/
def EventQueue.len {E : Type} (q : EventQueue E) : Nat :=
  q.events.length

/-- `EventQueue::push`: logs a warning when `self.events.len() >=
self.events.capacity()` (the `Vec`'s current capacity), then `Vec::push`es
the event unconditionally.  When the `Vec` is full the push reallocates;
the standard library does not specify the capacity the allocator picks
(amortised growth, at least `len + 1`), so it is the `grown_capacity`
argument here; a push into a `Vec` with spare room leaves the capacity
unchanged.  The returned `Bool` is true exactly when the warning was
logged. -/
def EventQueue.push {E : Type} (q : EventQueue E) (event : E)
    (grown_capacity : Nat) : EventQueue E × Bool :=
  let warned := q.events.length ≥ q.capacity
  ({ events := q.events ++ [event]
     capacity :=
       if q.events.length + 1 ≤ q.capacity then q.capacity
       else grown_capacity },
   warned)

/-- C7: for every `EventQueue` state, including states whose length is at
or above the capacity the queue was created with, and whatever capacity a
reallocation would pick, `push(event)` appends exactly the given event at
the end: `len` grows by exactly 1, the previously stored events are
unchanged (the new list is the old list with `event` appended), the call
never fails or drops the event, and the warning is logged exactly when the
`Vec` was full (`len() >= capacity()`). -/
theorem eventQueue_push_always_appends {E : Type} (q : EventQueue E)
    (event : E) (grown_capacity : Nat) :
    (q.push event grown_capacity).1.events = q.events ++ [event] ∧
    (q.push event grown_capacity).1.len = q.len + 1 ∧
    (q.push event grown_capacity).2 = decide (q.len ≥ q.capacity) := by
  refine ⟨rfl, ?_, ?_⟩
  · simp [EventQueue.push, EventQueue.len]
  · simp [EventQueue.push, EventQueue.len]

/-! ## C10 — AllocatedEvent::get
(src/plugin/events/event_queue.rs lines 64-218.)

`AllocatedEvent::from_event` serialises the event into a fixed-size byte
record (`[u8; size_of::<EventTransport>()]`); `AllocatedEvent::get` is
`Err(())` unconditionally — its whole decoding body is commented out in the
source.  The raw C byte layout is not reproduced here; `eventRecordBytes`
stands for the serialised record (tag plus zero padding to the transport
size), which `get` never inspects. -/

/-- The event kinds of `PluginEvent` (src/plugin/events). Payloads are
omitted: no embedded function inspects them. -/
inductive PluginEvent : Type
  | note
  | noteExpression
  | paramValue
  | paramMod
  | paramGesture
  | transport
  | midi
  | midiSysex
  | midi2
  deriving DecidableEq, Repr

/-- `AllocatedEvent`: the fixed-size byte record
`[u8; size_of::<EventTransport>()]`. -/
structure AllocatedEvent where
  data : List Nat
  deriving DecidableEq, Repr

/-- The serialised record written by `from_event`: the variant's bytes
(abstracted to a tag) padded with zeros to the maximal (transport) size. -/
def eventRecordBytes (e : PluginEvent) : List Nat :=
  match e with
  | .note => 1 :: List.replicate 15 0
  | .noteExpression => 2 :: List.replicate 15 0
  | .paramValue => 3 :: List.replicate 15 0
  | .paramMod => 4 :: List.replicate 15 0
  | .paramGesture => 5 :: List.replicate 15 0
  | .transport => 6 :: List.replicate 15 0
  | .midi => 7 :: List.replicate 15 0
  | .midiSysex => 8 :: List.replicate 15 0
  | .midi2 => 9 :: List.replicate 15 0

/-- `AllocatedEvent::from_event`. -/
def AllocatedEvent.from_event (e : PluginEvent) : AllocatedEvent :=
  { data := eventRecordBytes e }

/-- `AllocatedEvent::get`: the source returns `Err(())` immediately; the
entire decoder below that line is commented out. -/
def AllocatedEvent.get (_ : AllocatedEvent) : Except Unit PluginEvent :=
  .error ()

/-- C10: for every `AllocatedEvent`, `get()` returns `Err(())`; in
particular, for every `PluginEvent` `e`, `from_event(e).get()` is
`Err(())`, so the encode-then-decode round trip through the fixed-size
event record never yields back the original event. -/
theorem allocatedEvent_get_always_err :
    (∀ a : AllocatedEvent, a.get = .error ()) ∧
    (∀ e : PluginEvent, (AllocatedEvent.from_event e).get = .error ()) := by
  exact ⟨fun _ => rfl, fun _ => rfl⟩

/-! ## Shared plugin state (src/graph/plugin_host.rs lines 1181-1237) -/

/-- `PluginState` (plugin_host.rs lines 1183-1200), `repr(u32)`. -/
inductive PluginState : Type
  | inactive
  | inactiveWithError
  | active
  | waitingToDrop
  | droppedAndReadyToDeactivate
  deriving DecidableEq, Repr

/-- The `repr(u32)` discriminant of a `PluginState`. -/
def PluginState.toU32 : PluginState → Nat
  | .inactive => 0
  | .inactiveWithError => 1
  | .active => 2
  | .waitingToDrop => 3
  | .droppedAndReadyToDeactivate => 4

/-- `impl From<u32> for PluginState` (plugin_host.rs lines 1202-1213):
unknown discriminants decode to `InactiveWithError`. -/
def PluginState.fromU32 (s : Nat) : PluginState :=
  match s with
  | 0 => .inactive
  | 1 => .inactiveWithError
  | 2 => .active
  | 3 => .waitingToDrop
  | 4 => .droppedAndReadyToDeactivate
  | _ => .inactiveWithError

/-- `SharedPluginState` (plugin_host.rs lines 1216-1237): an atomic `u32`
state word plus the `start_processing` atomic flag, modelled by value. -/
structure SharedPluginState where
  state : Nat
  start_processing : Bool
  deriving DecidableEq, Repr

/-- `SharedPluginState::new()`: `AtomicU32::new(0)`, `AtomicBool::new(false)`. -/
def SharedPluginState.new : SharedPluginState :=
  { state := 0, start_processing := false }

/-- `SharedPluginState::get_state`. -/
def SharedPluginState.get_state (s : SharedPluginState) : PluginState :=
  PluginState.fromU32 s.state

/-- `SharedPluginState::set_state`. -/
def SharedPluginState.set_state (s : SharedPluginState) (st : PluginState) :
    SharedPluginState :=
  { s with state := st.toU32 }

/-! ## C8 — PluginInstanceHost::new
(src/graph/plugin_host.rs lines 250-302.)

`new` binds `let state = Arc::new(SharedPluginState::new())`, writes
`InactiveWithError` to *that* object when `main_thread` is `None`, but the
struct literal it returns contains `state: Arc::new(SharedPluginState::new())`
— a second, freshly created state — so the local one is discarded. -/

/-- The result of the state-relevant part of `PluginInstanceHost::new`: the
locally created (and then discarded) `SharedPluginState`, and the state
object actually stored in the constructed host. -/
structure PluginInstanceHostNewResult where
  discardedState : SharedPluginState
  storedState : SharedPluginState
  deriving DecidableEq, Repr

/-- `PluginInstanceHost::new` restricted to its writes to `SharedPluginState`
objects: `main_thread_present` abstracts `main_thread.is_some()` (the preset
load touches no state object). -/
def pluginInstanceHost_new (main_thread_present : Bool) :
    PluginInstanceHostNewResult :=
  let state := SharedPluginState.new
  let state :=
    if main_thread_present then state
    else state.set_state .inactiveWithError
  { discardedState := state
    storedState := SharedPluginState.new }

/-- C8: for every call to `PluginInstanceHost::new`, the `SharedPluginState`
stored in the constructed host is a freshly created one whose value is
`Inactive` (0), even when `main_thread` is `None`; the `InactiveWithError`
written during construction goes to a different, locally created state
object that is discarded, so `get_state()` on the constructed host returns
`Inactive` immediately after construction. -/
theorem pluginInstanceHost_new_stored_state_inactive :
    (∀ main_thread_present : Bool,
      (pluginInstanceHost_new main_thread_present).storedState =
        SharedPluginState.new ∧
      (pluginInstanceHost_new main_thread_present).storedState.get_state =
        .inactive) ∧
    (pluginInstanceHost_new false).discardedState.get_state =
      .inactiveWithError := by
  constructor
  · intro mt
    exact ⟨rfl, rfl⟩
  · rfl

/-! ## C2 — AudioPortBufferMut::sync_constant_mask_to_buffers
(src/graph/plugin/audio_buffer.rs lines 254-336; the F32 arm is the one in
use — `AudioPortBufferMut::new` always builds `RawAudioChannelBuffers::F32`.) -/

/-- `AudioPortBufferMut` (F32 variant): the channel buffers, the port
latency, and the port's own 64-bit `constant_mask` field. -/
structure AudioPortBufferMut where
  raw_channels : List SharedBufferF32
  latency : Nat
  constant_mask : Nat
  deriving DecidableEq, Repr

/-- `AudioPortBufferMut::set_constant_mask(mask)`. -/
def AudioPortBufferMut.set_constant_mask (b : AudioPortBufferMut) (mask : Nat) :
    AudioPortBufferMut :=
  { b with constant_mask := mask }

/-- `AudioPortBufferMut::sync_constant_mask_to_buffers` (lines 303-318), F32
arm: for each channel `i`, `buf.set_constant((self.constant_mask & (1 << i)) == 1)`
— note the comparison with `1`, not with `0`. -/
def AudioPortBufferMut.sync_constant_mask_to_buffers (b : AudioPortBufferMut) :
    AudioPortBufferMut :=
  { b with
    raw_channels :=
      (List.range b.raw_channels.length).zip b.raw_channels |>.map
        (fun p => p.2.set_constant (decide (b.constant_mask &&& (1 <<< p.1) = 1))) }

/-- C2, evaluated at the failing input: a two-channel `AudioPortBufferMut`
after `set_constant_mask(3)` and `sync_constant_mask_to_buffers` has channel
1's constant flag cleared, although bit 1 of the mask is 1 (channel 0's flag
is set, since `3 & 1 == 1`). -/
theorem sync_constant_mask_bit1_lost :
    let b : AudioPortBufferMut :=
      { raw_channels :=
          [{ data := [0, 0], is_constant := false },
           { data := [0, 0], is_constant := false }]
        latency := 0
        constant_mask := 0 }
    let b' := (b.set_constant_mask 3).sync_constant_mask_to_buffers
    (3 >>> 1) % 2 = 1 ∧
    (b'.raw_channels.map SharedBufferF32.is_constant) = [true, false] := by
  exact ⟨rfl, rfl⟩

/-! ## C9 — is_silent
(src/graph/plugin/audio_buffer.rs lines 201-249 for `AudioPortBuffer` and
lines 521-569 for `AudioPortBufferMut`; the two bodies are identical.  When
`constant_mask == 0` only `buf_ref[0]` of each channel is inspected; the
full scan over `[0, frames)` runs only when `constant_mask != 0`.) -/

/-- `AudioPortBuffer` (F32 variant): channel buffers, latency, and the
port's 64-bit `constant_mask`. -/
structure AudioPortBuffer where
  raw_channels : List SharedBufferF32
  latency : Nat
  constant_mask : Nat
  deriving DecidableEq, Repr

/-- `AudioPortBuffer::is_silent(frames)` (lines 201-249): with a zero
constant mask only sample 0 of each channel is compared against `0.0`;
otherwise every sample in `[0, frames)` of each channel is. -/
def AudioPortBuffer.is_silent (b : AudioPortBuffer) (frames : Nat) : Bool :=
  if b.constant_mask = 0 then
    b.raw_channels.all (fun ch => ch.data.getD 0 0 == 0)
  else
    b.raw_channels.all (fun ch => (ch.data.take frames).all (fun x => x == 0))

/-- `AudioPortBufferMut::is_silent(frames)` (lines 521-569): same body as
the immutable variant's. -/
def AudioPortBufferMut.is_silent (b : AudioPortBufferMut) (frames : Nat) : Bool :=
  if b.constant_mask = 0 then
    b.raw_channels.all (fun ch => ch.data.getD 0 0 == 0)
  else
    b.raw_channels.all (fun ch => (ch.data.take frames).all (fun x => x == 0))

/-- C9: for every `AudioPortBuffer` or `AudioPortBufferMut` whose
`constant_mask` is 0, `is_silent(frames)` inspects only sample 0 of each
channel: it returns true exactly when the first sample of every channel is
`0.0`, regardless of the samples in `[1, frames)`; the full per-sample scan
over `[0, frames)` decides the result only when `constant_mask` is
nonzero. -/
theorem is_silent_zero_mask_checks_first_sample_only
    (b : AudioPortBuffer) (bm : AudioPortBufferMut) (frames : Nat) :
    (b.constant_mask = 0 →
      (b.is_silent frames = true ↔
        ∀ ch ∈ b.raw_channels, ch.data.getD 0 0 = 0)) ∧
    (b.constant_mask ≠ 0 →
      (b.is_silent frames = true ↔
        ∀ ch ∈ b.raw_channels, ∀ x ∈ ch.data.take frames, x = 0)) ∧
    (bm.constant_mask = 0 →
      (bm.is_silent frames = true ↔
        ∀ ch ∈ bm.raw_channels, ch.data.getD 0 0 = 0)) ∧
    (bm.constant_mask ≠ 0 →
      (bm.is_silent frames = true ↔
        ∀ ch ∈ bm.raw_channels, ∀ x ∈ ch.data.take frames, x = 0)) := by
  refine ⟨fun h => ?_, fun h => ?_, fun h => ?_, fun h => ?_⟩ <;>
    simp [AudioPortBuffer.is_silent, AudioPortBufferMut.is_silent, h,
      List.all_eq_true]

/-- A concrete two-channel port buffer whose channels are nonzero from
sample 1 on, with a zero constant mask. -/
def c9ZeroMaskBuffer : AudioPortBuffer :=
  { raw_channels :=
      [{ data := [0, 7, 9], is_constant := false },
       { data := [0, 3, 0], is_constant := false }],
    latency := 0,
    constant_mask := 0 }

/-- A concrete one-channel port buffer with a nonzero constant mask and a
nonzero sample at index 1. -/
def c9ScannedBuffer : AudioPortBufferMut :=
  { raw_channels := [{ data := [0, 5], is_constant := true }],
    latency := 0,
    constant_mask := 1 }

/-- C9 witness: with a zero constant mask the buffer above is reported
silent although samples past index 0 are nonzero, and with a nonzero mask
the full scan of the second buffer finds the nonzero sample at index 1. -/
theorem is_silent_zero_mask_witness :
    c9ZeroMaskBuffer.is_silent 3 = true ∧
    c9ScannedBuffer.is_silent 2 = false := by
  constructor
  · exact ((is_silent_zero_mask_checks_first_sample_only
      c9ZeroMaskBuffer c9ScannedBuffer 3).1 rfl).mpr (by decide)
  · have h := (is_silent_zero_mask_checks_first_sample_only
      c9ZeroMaskBuffer c9ScannedBuffer 2).2.2.2 (by decide)
    cases hb : c9ScannedBuffer.is_silent 2
    · rfl
    · exact absurd (h.mp hb { data := [0, 5], is_constant := true }
        (by decide) 5 (by decide)) (by decide)

/-! ## C1 — DeactivatedPluginTask::process
(src/graph/schedule/task.rs lines 206-243.)

The task (a) for each `(in_buf, out_buf)` pair in `audio_through` copies the
input's constant flag and its first `frames` samples to the output, (b)
calls `clear_f32(frames)` on each buffer in `extra_audio_out`, and (c)
calls `clear()` on the automation out buffer and each note out buffer.  The
event element type `E` (`ProcEvent`) is abstract: the task only clears
event buffers. -/

/-- `DeactivatedPluginTask` (task.rs lines 206-213). -/
structure DeactivatedPluginTask (E : Type) where
  audio_through : List (SharedBufferF32 × SharedBufferF32)
  extra_audio_out : List SharedBufferF32
  automation_out_buffer : Option (List E)
  note_out_buffers : List (Option (List E))

/-- `DeactivatedPluginTask::process` (task.rs lines 215-243): pass audio
through the main ports (`out_buf.set_constant(in_buf.is_constant())`, then
`out_buf[0..frames].copy_from_slice(&in_buf[0..frames])`), clear the extra
audio outputs over `[0, frames)`, and clear the automation and note event
outputs. -/
def DeactivatedPluginTask.process {E : Type} (t : DeactivatedPluginTask E)
    (frames : Nat) : DeactivatedPluginTask E :=
  { audio_through :=
      t.audio_through.map (fun p =>
        let out1 := p.2.set_constant p.1.is_constant
        (p.1, { out1 with data := p.1.data.take frames ++ out1.data.drop frames }))
    extra_audio_out := t.extra_audio_out.map (fun b => b.clear_f32 frames)
    automation_out_buffer := t.automation_out_buffer.map (fun _ => ([] : List E))
    note_out_buffers := t.note_out_buffers.map (Option.map (fun _ => ([] : List E))) }

/-- C1: for every `DeactivatedPluginTask` and every frame count `n` not
exceeding the buffers' capacity, `process` with `proc_info.frames = n`
leaves, for each `(input, output)` pair in `audio_through`,
`output[i] = input[i]` for all `i ∈ [0, n)` and `output`'s constant flag
equal to `input`'s; leaves every buffer in `extra_audio_out` equal to `0.0`
on `[0, n)`; and leaves the `automation_out_buffer` and every
`note_out_buffer` empty. -/
theorem deactivatedPluginTask_process_passthrough {E : Type}
    (t : DeactivatedPluginTask E) (n : Nat)
    (hthrough : ∀ p ∈ t.audio_through, n ≤ p.1.max_frames ∧ n ≤ p.2.max_frames) :
    (t.process n).audio_through.length = t.audio_through.length ∧
    (∀ k, k < t.audio_through.length →
      ((t.process n).audio_through.getD k default).2.is_constant
          = (t.audio_through.getD k default).1.is_constant ∧
      ∀ i, i < n →
        ((t.process n).audio_through.getD k default).2.data.getD i 0
            = (t.audio_through.getD k default).1.data.getD i 0) ∧
    (∀ b ∈ (t.process n).extra_audio_out, ∀ i, i < n → b.data.getD i 0 = 0) ∧
    (∀ l ∈ (t.process n).automation_out_buffer, l = []) ∧
    (∀ ob ∈ (t.process n).note_out_buffers, ∀ l ∈ ob, l = []) := by
  refine ⟨by simp [DeactivatedPluginTask.process], ?_, ?_, ?_, ?_⟩
  · intro k hk
    have hk' : k < ((t.process n).audio_through).length := by
      simpa [DeactivatedPluginTask.process] using hk
    have hmem : t.audio_through.getD k default ∈ t.audio_through := by
      rw [List.getD_eq_getElem?_getD, List.getElem?_eq_getElem hk]
      simp only [Option.getD_some]
      exact List.getElem_mem hk
    obtain ⟨hin, _⟩ := hthrough _ hmem
    have hgd : (t.process n).audio_through.getD k default =
        (fun p : SharedBufferF32 × SharedBufferF32 =>
          let out1 := p.2.set_constant p.1.is_constant
          (p.1, { out1 with
                  data := p.1.data.take n ++ out1.data.drop n }))
          (t.audio_through.getD k default) := by
      simp only [DeactivatedPluginTask.process]
      rw [List.getD_eq_getElem?_getD, List.getD_eq_getElem?_getD,
        List.getElem?_map, List.getElem?_eq_getElem hk]
      rfl
    refine ⟨by rw [hgd]; simp [SharedBufferF32.set_constant], ?_⟩
    intro i hi
    rw [hgd]
    set p := t.audio_through.getD k default with hp
    simp only [SharedBufferF32.set_constant]
    have hilt : i < (p.1.data.take n).length := by
      simp only [List.length_take]
      exact lt_min hi (lt_of_lt_of_le hi hin)
    simp only [List.getD_eq_getElem?_getD]
    rw [List.getElem?_append_left hilt, List.getElem?_take_of_lt hi]
  · intro b hb i hi
    simp only [DeactivatedPluginTask.process, List.mem_map] at hb
    obtain ⟨b0, _, rfl⟩ := hb
    simp only [SharedBufferF32.clear_f32, List.getD_eq_getElem?_getD]
    rw [List.getElem?_append_left (by simpa using hi)]
    simp [List.getElem?_replicate_of_lt hi]
  · intro l hl
    simp only [DeactivatedPluginTask.process, Option.mem_def, Option.map_eq_some']
      at hl
    obtain ⟨_, _, rfl⟩ := hl
    rfl
  · intro ob hob l hl
    simp only [DeactivatedPluginTask.process, List.mem_map] at hob
    obtain ⟨ob0, _, rfl⟩ := hob
    rcases ob0 with _ | l0
    · simp at hl
    · simp only [Option.map_some', Option.mem_def, Option.some.injEq] at hl
      exact hl.symm

/-- A concrete deactivated-plugin task: one pass-through pair, one extra
output, an automation output and one note output, all with capacity 3. -/
def c1Task : DeactivatedPluginTask Nat :=
  { audio_through :=
      [({ data := [4, 5, 6], is_constant := true },
        { data := [7, 8, 9], is_constant := false })],
    extra_audio_out := [{ data := [1, 2, 3], is_constant := false }],
    automation_out_buffer := some [11, 12],
    note_out_buffers := [some [21], none] }

/-- C1 witness: the pass-through theorem applied to `c1Task` at `n = 2`. -/
theorem deactivatedPluginTask_process_witness :
    ((c1Task.process 2).audio_through.getD 0 default).2.data.getD 0 0 = 4 ∧
    ((c1Task.process 2).audio_through.getD 0 default).2.is_constant = true ∧
    (∀ b ∈ (c1Task.process 2).extra_audio_out, ∀ i, i < 2 → b.data.getD i 0 = 0) ∧
    (∀ l ∈ (c1Task.process 2).automation_out_buffer, l = []) := by
  have h := deactivatedPluginTask_process_passthrough c1Task 2 (by decide)
  refine ⟨?_, ?_, h.2.2.1, h.2.2.2.1⟩
  · have := (h.2.1 0 (by decide)).2 0 (by decide)
    rw [this]
    decide
  · have := (h.2.1 0 (by decide)).1
    rw [this]
    decide

/-! ## C6 — PluginInstanceHost::activate
(src/graph/plugin_host.rs lines 414-570.)

`can_activate` rejects `NotLoaded` / `AlreadyActive` *before* anything is
written to the shared state; every later failure step writes
`InactiveWithError`, and success writes `Active`.  Error messages and the
plugin's extension payloads are opaque to the control flow and carried as
`Nat` codes / `Unit`. -/

/-- `ActivatePluginError` (plugin_host.rs lines 1240-1249); `String`
payloads are carried as opaque `Nat` codes. -/
inductive ActivatePluginError : Type
  | notLoaded
  | alreadyActive
  | restartScheduled
  | pluginFailedToGetAudioPortsExt (msg : Nat)
  | pluginFailedToGetNotePortsExt (msg : Nat)
  | pluginFailedToGetParamInfo (index : Nat)
  | pluginFailedToGetParamValue (param_id : Nat)
  | pluginSpecific (msg : Nat)
  deriving DecidableEq, Repr

/-- `ParamInfo` restricted to the fields the embedded control flow reads:
the stable id and the `IS_READONLY` flag. -/
structure ParamInfoM where
  stable_id : Nat
  is_readonly : Bool
  deriving DecidableEq, Repr

/-- The plugin's main-thread facet as `activate` observes it: the answers
it would give to each query made during activation. -/
structure PluginMainThreadModel where
  audio_ports_ext : Except Nat Unit
  note_ports_ext : Except Nat Unit
  params : List (Except Unit ParamInfoM)
  param_value : Nat → Except Unit Int
  activate_res : Except Nat Unit

/-- The error cases of the parameter-enumeration loop of `activate`
(plugin_host.rs lines 474-497). -/
inductive ParamCollectError : Type
  | failInfo (index : Nat)
  | failValue (param_id : Nat)
  deriving DecidableEq, Repr

/-- The parameter-enumeration loop of `activate`: for each index, query
`param_info(i)`, then `param_value(info.stable_id)`; the first failure
aborts the loop. -/
def collectParamsGo (pm : PluginMainThreadModel) :
    Nat → List (Except Unit ParamInfoM) →
      Except ParamCollectError (List (Nat × Int))
  | _, [] => .ok []
  | i, .error _ :: _ => .error (.failInfo i)
  | i, .ok info :: rest =>
    match pm.param_value info.stable_id with
    | .error _ => .error (.failValue info.stable_id)
    | .ok v =>
      match collectParamsGo pm (i + 1) rest with
      | .error e => .error e
      | .ok tail => .ok ((info.stable_id, v) :: tail)

/-- The parameter enumeration from index 0 over all `num_params` entries. -/
def collectParams (pm : PluginMainThreadModel) :
    Except ParamCollectError (List (Nat × Int)) :=
  collectParamsGo pm 0 pm.params

/-- The state of a `PluginInstanceHost` that `activate` consults: the shared
`PluginState` value and whether `main_thread` is `Some`. -/
structure PluginInstanceHostA where
  state : PluginState
  has_main_thread : Bool
  deriving DecidableEq, Repr

/-- `PluginInstanceHost::can_activate` (plugin_host.rs lines 414-423). -/
def can_activate (h : PluginInstanceHostA) : Except ActivatePluginError Unit :=
  if h.has_main_thread = false then .error .notLoaded
  else if h.state = .active then .error .alreadyActive
  else .ok ()

/-- `PluginInstanceHost::activate` (plugin_host.rs lines 425-570) restricted
to its writes to the shared `PluginState` and its result: returns the state
value observed after the call together with the `Result` (the `Ok` payload
kept is the initial parameter-value map). -/
def PluginInstanceHostA.activate (h : PluginInstanceHostA)
    (pm : PluginMainThreadModel) :
    PluginState × Except ActivatePluginError (List (Nat × Int)) :=
  match can_activate h with
  | .error e => (h.state, .error e)
  | .ok _ =>
    match pm.audio_ports_ext with
    | .error e => (.inactiveWithError, .error (.pluginFailedToGetAudioPortsExt e))
    | .ok _ =>
      match pm.note_ports_ext with
      | .error e => (.inactiveWithError, .error (.pluginFailedToGetNotePortsExt e))
      | .ok _ =>
        match collectParams pm with
        | .error (.failInfo i) =>
            (.inactiveWithError, .error (.pluginFailedToGetParamInfo i))
        | .error (.failValue pid) =>
            (.inactiveWithError, .error (.pluginFailedToGetParamValue pid))
        | .ok param_values =>
          match pm.activate_res with
          | .ok _ => (.active, .ok param_values)
          | .error e => (.inactiveWithError, .error (.pluginSpecific e))

/-- A plugin model that answers every activation query successfully, with
one writable parameter of stable id 7 and value 5. -/
def c6OkPlugin : PluginMainThreadModel :=
  { audio_ports_ext := .ok ()
    note_ports_ext := .ok ()
    params := [.ok { stable_id := 7, is_readonly := false }]
    param_value := fun _ => .ok 5
    activate_res := .ok () }

/-- C6 counterexample: a host whose `main_thread` is `None` and whose state
is `Inactive`.  `activate` returns `Err(NotLoaded)` — one of the failure
steps the claim lists — yet the state observed afterwards is still
`Inactive`, not `InactiveWithError`: `can_activate` fails before any state
write. -/
theorem activate_notLoaded_leaves_state_counterexample :
    (PluginInstanceHostA.activate
        { state := .inactive, has_main_thread := false } c6OkPlugin).2
      = .error .notLoaded ∧
    (PluginInstanceHostA.activate
        { state := .inactive, has_main_thread := false } c6OkPlugin).1
      = .inactive ∧
    PluginState.inactive ≠ PluginState.inactiveWithError := by
  refine ⟨rfl, rfl, by decide⟩

/-- C6 amended: whenever `activate` returns `Ok`, the state observed
afterwards is `Active`; whenever it returns `Err(NotLoaded)` or
`Err(AlreadyActive)` (the `can_activate` precondition checks), the state is
left exactly as it was; whenever it returns any other error — failing to
get audio ports, note ports, param info, a param value, or the plugin's own
`activate` failing — the state observed afterwards is `InactiveWithError`,
and the error names the failing step. -/
theorem activate_state_amended (h : PluginInstanceHostA)
    (pm : PluginMainThreadModel) :
    ((h.activate pm).2.isOk = true → (h.activate pm).1 = .active) ∧
    ((h.activate pm).2 = .error .notLoaded ∨
        (h.activate pm).2 = .error .alreadyActive →
      (h.activate pm).1 = h.state) ∧
    (∀ e, (h.activate pm).2 = .error e → e ≠ .notLoaded →
      e ≠ .alreadyActive → (h.activate pm).1 = .inactiveWithError) := by
  have hca : ∀ e, can_activate h = .error e →
      e = .notLoaded ∨ e = .alreadyActive := by
    intro e he
    unfold can_activate at he
    split at he
    · exact Or.inl (by cases he; rfl)
    · split at he
      · exact Or.inr (by cases he; rfl)
      · cases he
  unfold PluginInstanceHostA.activate
  cases hc : can_activate h with
  | error e =>
    rcases hca e hc with rfl | rfl
    · simp [Except.isOk, Except.toBool]
    · simp [Except.isOk, Except.toBool]
  | ok u =>
    cases hap : pm.audio_ports_ext with
    | error m => simp [Except.isOk, Except.toBool]
    | ok v1 =>
      cases hnp : pm.note_ports_ext with
      | error m => simp [Except.isOk, Except.toBool]
      | ok v2 =>
        cases hcp : collectParams pm with
        | error pce =>
          cases pce with
          | failInfo i => simp [Except.isOk, Except.toBool]
          | failValue pid => simp [Except.isOk, Except.toBool]
        | ok pv =>
          cases har : pm.activate_res with
          | ok v3 => simp [Except.isOk, Except.toBool]
          | error m => simp [Except.isOk, Except.toBool]

/-- C6 witness: the amended theorem applied to a ready host and the
all-successful plugin model: activation succeeds and the state is
`Active`; and applied to the `NotLoaded` host: the state is untouched. -/
theorem activate_state_amended_witness :
    (PluginInstanceHostA.activate
        { state := .inactive, has_main_thread := true } c6OkPlugin).1
      = .active ∧
    (PluginInstanceHostA.activate
        { state := .inactive, has_main_thread := false } c6OkPlugin).1
      = .inactive := by
  constructor
  · exact (activate_state_amended
      { state := .inactive, has_main_thread := true } c6OkPlugin).1 rfl
  · exact (activate_state_amended
      { state := .inactive, has_main_thread := false } c6OkPlugin).2.1
      (Or.inl rfl)

/-! ## C3 — parameter coalescing: set_value / consume_into_event_buffer
(src/graph/plugin_host.rs lines 118-139 for `PluginParamsExt::set_value`
and lines 172-220 for `ParamQueuesAudioThread::consume_into_event_buffer`.) -/

/-- Modelled from the spec: `ReducingFnvQueue` lives in
`src/utils/reducing_queue.rs`, which is not among the given sources.  Spec
§4.4: "Reducing means multiple values for the same parameter id coalesce
into the latest value; the queue maintains a map keyed by parameter id and
a ring of unique keys."  The pending entries are an association list in
first-insertion order of the unique keys. -/
abbrev ReducQueue := List (Nat × Int)

/-- Modelled from the spec: `ReducFnvProducer::set(key, value)` — overwrite
the pending value for `key` if one exists, otherwise enqueue the key. -/
def ReducQueue.set (q : ReducQueue) (k : Nat) (v : Int) : ReducQueue :=
  if q.any (fun kv => kv.1 == k) then
    q.map (fun kv => if kv.1 = k then (k, v) else kv)
  else
    q ++ [(k, v)]

/-- `PluginParamsExt` (plugin_host.rs lines 101-107): the parameter map
(`ParamID → ParamInfo`, as an association list) and the two UI→Audio
producer endpoints (present only when the plugin has parameters). -/
structure PluginParamsExt where
  params : List (Nat × ParamInfoM)
  ui_to_audio_param_value_tx : Option ReducQueue
  ui_to_audio_param_mod_tx : Option ReducQueue
  deriving DecidableEq, Repr

/-- `PluginParamsExt::set_value` (plugin_host.rs lines 118-139): ignored
when the plugin has no parameters, when the id is unknown, or when the
parameter is read-only; otherwise `tx.set(param_id, value)`. -/
def PluginParamsExt.set_value (p : PluginParamsExt) (param_id : Nat)
    (value : Int) : PluginParamsExt :=
  match p.ui_to_audio_param_value_tx with
  | none => p
  | some q =>
    match p.params.lookup param_id with
    | none => p
    | some info =>
      if info.is_readonly then p
      else { p with ui_to_audio_param_value_tx := some (q.set param_id value) }

/-- The header-plus-target fields of the CLAP parameter events built by
`consume_into_event_buffer`: header time, note id, param id, port index,
channel, key, and the carried value. -/
structure ParamEventFields where
  time : Nat
  note_id : Int
  param_id : Nat
  port_index : Int
  channel : Int
  key : Int
  value : Int
  deriving DecidableEq, Repr

/-- The two event kinds `consume_into_event_buffer` can push into the
plugin's input event buffer. -/
inductive ClapParamEvent : Type
  | paramValue (e : ParamEventFields)
  | paramMod (e : ParamEventFields)
  deriving DecidableEq, Repr

/-- `ParamQueuesAudioThread::consume_into_event_buffer` (plugin_host.rs
lines 172-220): drain the UI→Audio value queue, pushing for each pending
`(param_id, value)` a `ParamValueEvent` with header time 0, and `note_id`,
`port_index`, `channel`, `key` all `-1`; then drain the mod queue the same
way into `ParamModEvent`s.  Returns the buffer and `has_param_in_event`
(true when either closure ran at least once). -/
def consume_into_event_buffer (value_rx mod_rx : ReducQueue)
    (buffer : List ClapParamEvent) : List ClapParamEvent × Bool :=
  let buffer := buffer ++ value_rx.map (fun kv =>
    ClapParamEvent.paramValue
      { time := 0, note_id := -1, param_id := kv.1, port_index := -1,
        channel := -1, key := -1, value := kv.2 })
  let buffer := buffer ++ mod_rx.map (fun kv =>
    ClapParamEvent.paramMod
      { time := 0, note_id := -1, param_id := kv.1, port_index := -1,
        channel := -1, key := -1, value := kv.2 })
  (buffer, !value_rx.isEmpty || !mod_rx.isEmpty)

/-- Repeated `set_value` calls for the same writable parameter keep the
pending queue at the single coalesced entry holding the latest value. -/
theorem set_value_foldl_coalesces (params : List (Nat × ParamInfoM))
    (p : Nat) (info : ParamInfoM)
    (hp : params.lookup p = some info) (hro : info.is_readonly = false)
    (vs : List Int) (w : Int) :
    vs.foldl (fun (a : PluginParamsExt) x => a.set_value p x)
        { params := params, ui_to_audio_param_value_tx := some [(p, w)],
          ui_to_audio_param_mod_tx := some [] }
      = { params := params,
          ui_to_audio_param_value_tx := some [(p, vs.getLastD w)],
          ui_to_audio_param_mod_tx := some [] } := by
  induction vs generalizing w with
  | nil => simp
  | cons x xs ih =>
    rw [List.foldl_cons]
    have hstep :
        PluginParamsExt.set_value
          { params := params, ui_to_audio_param_value_tx := some [(p, w)],
            ui_to_audio_param_mod_tx := some [] } p x
        = { params := params, ui_to_audio_param_value_tx := some [(p, x)],
            ui_to_audio_param_mod_tx := some [] } := by
      simp [PluginParamsExt.set_value, hp, hro, ReducQueue.set]
    rw [hstep, ih, List.getLastD_cons]

/-- C3: if the UI side calls `set_value` for a writable parameter `p`
several times (values `v :: vs`) before the audio thread drains the
UI→Audio queue once, then `consume_into_event_buffer` pushes exactly one
parameter-value event for `p` into the plugin's input event buffer,
carrying the last value, with header time 0 and `note_id`, `port_index`,
`channel` and `key` all equal to `-1`. -/
theorem set_value_then_consume_delivers_last (params : List (Nat × ParamInfoM))
    (p : Nat) (info : ParamInfoM) (v : Int) (vs : List Int)
    (buffer : List ClapParamEvent)
    (hp : params.lookup p = some info) (hro : info.is_readonly = false) :
    let ps0 : PluginParamsExt :=
      { params := params, ui_to_audio_param_value_tx := some [],
        ui_to_audio_param_mod_tx := some [] }
    let ps1 := (v :: vs).foldl (fun a x => a.set_value p x) ps0
    ps1.ui_to_audio_param_value_tx = some [(p, vs.getLastD v)] ∧
    consume_into_event_buffer (ps1.ui_to_audio_param_value_tx.getD [])
        (ps1.ui_to_audio_param_mod_tx.getD []) buffer
      = (buffer ++
          [ClapParamEvent.paramValue
            { time := 0, note_id := -1, param_id := p, port_index := -1,
              channel := -1, key := -1, value := vs.getLastD v }], true) := by
  intro ps0 ps1
  have hfirst : ps0.set_value p v
      = { params := params, ui_to_audio_param_value_tx := some [(p, v)],
          ui_to_audio_param_mod_tx := some [] } := by
    simp [ps0, PluginParamsExt.set_value, hp, hro, ReducQueue.set]
  have hps1 : ps1
      = { params := params,
          ui_to_audio_param_value_tx := some [(p, vs.getLastD v)],
          ui_to_audio_param_mod_tx := some [] } := by
    show (v :: vs).foldl (fun a x => a.set_value p x) ps0 = _
    rw [List.foldl_cons, hfirst, set_value_foldl_coalesces params p info hp hro]
  rw [hps1]
  refine ⟨rfl, ?_⟩
  simp [consume_into_event_buffer]

/-- C3 witness: parameter 4 (writable) set to 1, 2, 3 before a single
drain delivers exactly one value event carrying 3. -/
theorem set_value_then_consume_witness :
    ([(3 : Int), 2, 1].foldl
        (fun (a : PluginParamsExt) x => a.set_value 4 x)
        { params := [(4, { stable_id := 4, is_readonly := false })],
          ui_to_audio_param_value_tx := some [],
          ui_to_audio_param_mod_tx := some [] }).ui_to_audio_param_value_tx
      = some [(4, 1)] := by
  exact (set_value_then_consume_delivers_last
    [(4, { stable_id := 4, is_readonly := false })] 4
    { stable_id := 4, is_readonly := false } 3 [2, 1] [] rfl rfl).1

/-! ## C5 — DAWEngineAudioThread::process_cpal_interleaved_output_only
(src/engine/audio_thread.rs lines 99-235.)

The wall-clock poll (up to `frames / sample_rate − 60 µs`, sleeping 5 µs
between tries) is not representable in a pure embedding; whether a complete
chunk of `total_frames * out_channels` samples becomes available from the
engine-output ring within that budget is the `engine_out` oracle: `some
chunk` when the chunk arrived in time (rtrb's `read_chunk(n)` yields exactly
`n` samples), `none` on timeout.  `input_ring_full` is the `write_chunk`
`Err` branch on the input ring.  Device samples (`T: cpal::Sample`) are the
same `Sample` carrier; `T::from(&0.0)` is `0`.  The returned `Bool` is true
exactly when the trailing `log::trace!` line logging the underrun ran. -/

/-- The interleaved conversion loop of the `cpal_out_channels ≠
self.out_channels` case (audio_thread.rs lines 172-222): the nested loops
write `out[(i * cpal_out_channels) + ch_i]` for every frame `i <
total_frames` and device channel `ch_i < cpal_out_channels`, reading
`chunk[(i * self.out_channels) + ch_i]` for engine channels and `0.0` for
extra device channels; rewritten over the flat index `idx = i *
cpal_out_channels + ch_i`, every other index keeps its prior value. -/
def deinterleave_write (out_channels cpal_out_channels total_frames : Nat)
    (chunk out : List Sample) : List Sample :=
  (List.range out.length).map (fun idx =>
    if idx < total_frames * cpal_out_channels then
      if idx % cpal_out_channels < out_channels then
        chunk.getD (idx / cpal_out_channels * out_channels
          + idx % cpal_out_channels) 0
      else 0
    else out.getD idx 0)

/-- `process_cpal_interleaved_output_only` (audio_thread.rs lines 99-235):
returns the device slice after the call and whether "underrun" was
logged. -/
def process_cpal_interleaved_output_only
    (in_channels out_channels cpal_out_channels : Nat)
    (input_ring_full : Bool) (engine_out : Option (List Sample))
    (out : List Sample) : List Sample × Bool :=
  if out.length < out_channels ∨ cpal_out_channels = 0 then
    (List.replicate out.length 0, false)
  else
    let total_frames := out.length / cpal_out_channels
    if in_channels ≠ 0 ∧ input_ring_full = true then
      (List.replicate out.length 0, false)
    else
      let num_out_samples := total_frames * out_channels
      if num_out_samples = 0 then
        (out, false)
      else
        match engine_out with
        | some chunk =>
          if cpal_out_channels = out_channels then
            (chunk.take num_out_samples ++ out.drop num_out_samples, false)
          else
            (deinterleave_write out_channels cpal_out_channels total_frames
              chunk out, false)
        | none => (List.replicate out.length 0, true)

/-- C5 counterexample: engine at 2 output channels, device at 2 channels, a
5-sample device slice (not a multiple of the channel count), and the
4-sample chunk available in time.  Only `total_frames * cpal_out_channels
= 4` samples are written; the 5th sample keeps whatever was in the slice —
two invocations differing only in that prior sample produce different
outputs, so not all `out.len()` samples are written. -/
theorem process_cpal_trailing_sample_not_written :
    (process_cpal_interleaved_output_only 0 2 2 false
        (some [1, 2, 3, 4]) [9, 9, 9, 9, 7]).1 = [1, 2, 3, 4, 7] ∧
    (process_cpal_interleaved_output_only 0 2 2 false
        (some [1, 2, 3, 4]) [9, 9, 9, 9, 8]).1 = [1, 2, 3, 4, 8] ∧
    ([1, 2, 3, 4, 7] : List Sample) ≠ [1, 2, 3, 4, 8] := by
  refine ⟨by decide, by decide, by decide⟩

/-- `deinterleave_write` preserves the slice length. -/
theorem deinterleave_write_length (oc cc tf : Nat) (chunk out : List Sample) :
    (deinterleave_write oc cc tf chunk out).length = out.length := by
  simp [deinterleave_write]

/-- Indices at or past `total_frames * cpal_out_channels` keep their prior
contents under `deinterleave_write`. -/
theorem deinterleave_write_getD_ge (oc cc tf : Nat) (chunk out : List Sample)
    (i : Nat) (h : tf * cc ≤ i) :
    (deinterleave_write oc cc tf chunk out).getD i 0 = out.getD i 0 := by
  by_cases hi : i < out.length
  · simp [deinterleave_write, List.getElem?_map, List.getElem?_range hi,
      Nat.not_lt.mpr h]
  · have h1 : out.length ≤ i := Nat.not_lt.mp hi
    have h2 : (deinterleave_write oc cc tf chunk out).length ≤ i := by
      rw [deinterleave_write_length]; exact h1
    rw [List.getD_eq_getElem?_getD, List.getD_eq_getElem?_getD,
      List.getElem?_eq_none h2, List.getElem?_eq_none h1]

/-- Indices below `total_frames * cpal_out_channels` are written by
`deinterleave_write` from the chunk alone: the prior slice contents do not
matter. -/
theorem deinterleave_write_getD_lt (oc cc tf : Nat)
    (chunk out out2 : List Sample) (hlen : out2.length = out.length)
    (i : Nat) (hi : i < tf * cc) (hio : i < out.length) :
    (deinterleave_write oc cc tf chunk out).getD i 0 =
      (deinterleave_write oc cc tf chunk out2).getD i 0 := by
  simp [deinterleave_write, hlen, List.getElem?_map, List.getElem?_range hio,
    hi]

/-- C5 amended: the callback's behaviour by case.  (1) When the slice is
shorter than the engine channel count or the device channel count is 0, the
whole slice is zeroed without an underrun log.  (2) When the input ring is
full, the whole slice is zeroed with an error (not underrun) log.  (3) When
`total_frames * out_channels = 0`, the function returns with the slice
untouched.  (4) When no complete chunk of `total_frames * out_channels`
samples becomes available within the wall-clock budget, every sample is
zeroed and "underrun" is logged.  (5) When the chunk arrives in time, the
result keeps the slice length, the first `total_frames * cpal_out_channels`
samples are written (independent of the slice's prior contents), and the
trailing `out.len() mod cpal_out_channels` samples keep their prior
contents — so not every invocation writes all `out.len()` samples. -/
theorem process_cpal_amended
    (in_channels out_channels cpal_out_channels : Nat) (ring_full : Bool)
    (engine_out : Option (List Sample)) (out : List Sample) :
    (out.length < out_channels ∨ cpal_out_channels = 0 →
      process_cpal_interleaved_output_only in_channels out_channels
          cpal_out_channels ring_full engine_out out
        = (List.replicate out.length 0, false)) ∧
    (¬(out.length < out_channels ∨ cpal_out_channels = 0) →
      in_channels ≠ 0 ∧ ring_full = true →
      process_cpal_interleaved_output_only in_channels out_channels
          cpal_out_channels ring_full engine_out out
        = (List.replicate out.length 0, false)) ∧
    (¬(out.length < out_channels ∨ cpal_out_channels = 0) →
      ¬(in_channels ≠ 0 ∧ ring_full = true) →
      out.length / cpal_out_channels * out_channels = 0 →
      process_cpal_interleaved_output_only in_channels out_channels
          cpal_out_channels ring_full engine_out out
        = (out, false)) ∧
    (¬(out.length < out_channels ∨ cpal_out_channels = 0) →
      ¬(in_channels ≠ 0 ∧ ring_full = true) →
      out.length / cpal_out_channels * out_channels ≠ 0 →
      engine_out = none →
      process_cpal_interleaved_output_only in_channels out_channels
          cpal_out_channels ring_full engine_out out
        = (List.replicate out.length 0, true)) ∧
    (∀ chunk, ¬(out.length < out_channels ∨ cpal_out_channels = 0) →
      ¬(in_channels ≠ 0 ∧ ring_full = true) →
      out.length / cpal_out_channels * out_channels ≠ 0 →
      engine_out = some chunk →
      chunk.length = out.length / cpal_out_channels * out_channels →
      (process_cpal_interleaved_output_only in_channels out_channels
          cpal_out_channels ring_full engine_out out).1.length = out.length ∧
      (∀ i, out.length / cpal_out_channels * cpal_out_channels ≤ i →
        (process_cpal_interleaved_output_only in_channels out_channels
            cpal_out_channels ring_full engine_out out).1.getD i 0
          = out.getD i 0) ∧
      (∀ out2, out2.length = out.length →
        ∀ i, i < out.length / cpal_out_channels * cpal_out_channels →
        (process_cpal_interleaved_output_only in_channels out_channels
            cpal_out_channels ring_full engine_out out).1.getD i 0
          = (process_cpal_interleaved_output_only in_channels out_channels
              cpal_out_channels ring_full engine_out out2).1.getD i 0)) := by
  refine ⟨?_, ?_, ?_, ?_, ?_⟩
  · intro h1
    simp only [process_cpal_interleaved_output_only]
    rw [if_pos h1]
  · intro h1 h2
    simp only [process_cpal_interleaved_output_only]
    rw [if_neg h1, if_pos h2]
  · intro h1 h2 h3
    simp only [process_cpal_interleaved_output_only]
    rw [if_neg h1, if_neg h2, if_pos h3]
  · intro h1 h2 h3 h4
    simp only [process_cpal_interleaved_output_only]
    rw [if_neg h1, if_neg h2, if_neg h3, h4]
  · intro chunk h1 h2 h3 h4 hchunk
    have hres : process_cpal_interleaved_output_only in_channels out_channels
        cpal_out_channels ring_full engine_out out
        = (if cpal_out_channels = out_channels then
            (chunk.take (out.length / cpal_out_channels * out_channels)
              ++ out.drop (out.length / cpal_out_channels * out_channels),
             false)
          else
            (deinterleave_write out_channels cpal_out_channels
              (out.length / cpal_out_channels) chunk out, false)) := by
      simp only [process_cpal_interleaved_output_only]
      rw [if_neg h1, if_neg h2, if_neg h3, h4]
    by_cases hcc : cpal_out_channels = out_channels
    · rw [hres, if_pos hcc]
      have hnosle : out.length / cpal_out_channels * out_channels ≤ out.length := by
        rw [← hcc]
        exact Nat.div_mul_le_self out.length cpal_out_channels
      have htklen : (chunk.take
          (out.length / cpal_out_channels * out_channels)).length
          = out.length / cpal_out_channels * out_channels := by
        rw [List.length_take, hchunk, Nat.min_self]
      refine ⟨?_, ?_, ?_⟩
      · simp only [List.length_append, htklen, List.length_drop]
        exact Nat.add_sub_cancel' hnosle
      · intro i hi
        have hi' : out.length / cpal_out_channels * out_channels ≤ i := by
          rw [hcc] at hi ⊢
          exact hi
        by_cases hio : i < out.length
        · rw [List.getD_eq_getElem?_getD, List.getD_eq_getElem?_getD,
            List.getElem?_append_right (by rw [htklen]; exact hi'), htklen,
            List.getElem?_drop, Nat.add_sub_cancel' hi']
        · have h5 : out.length ≤ i := Nat.not_lt.mp hio
          have h6 : (chunk.take (out.length / cpal_out_channels * out_channels)
              ++ out.drop (out.length / cpal_out_channels * out_channels)).length
              ≤ i := by
            simp only [List.length_append, htklen, List.length_drop]
            rw [Nat.add_sub_cancel' hnosle]
            exact h5
          rw [List.getD_eq_getElem?_getD, List.getD_eq_getElem?_getD,
            List.getElem?_eq_none h6, List.getElem?_eq_none h5]
      · intro out2 hlen2 i hi
        have hres2 : process_cpal_interleaved_output_only in_channels
            out_channels cpal_out_channels ring_full engine_out out2
            = (if cpal_out_channels = out_channels then
                (chunk.take (out2.length / cpal_out_channels * out_channels)
                  ++ out2.drop
                    (out2.length / cpal_out_channels * out_channels),
                 false)
              else
                (deinterleave_write out_channels cpal_out_channels
                  (out2.length / cpal_out_channels) chunk out2, false)) := by
          simp only [process_cpal_interleaved_output_only]
          rw [if_neg (hlen2 ▸ h1), if_neg h2, if_neg (hlen2 ▸ h3), h4]
        have hi' : i < out.length / cpal_out_channels * out_channels := by
          rw [hcc] at hi ⊢
          exact hi
        rw [hres2, if_pos hcc, hlen2]
        rw [List.getD_eq_getElem?_getD, List.getD_eq_getElem?_getD,
          List.getElem?_append_left (by rw [htklen]; exact hi'),
          List.getElem?_append_left (by rw [htklen]; exact hi')]
    · rw [hres, if_neg hcc]
      have htfle : out.length / cpal_out_channels * cpal_out_channels
          ≤ out.length := Nat.div_mul_le_self out.length cpal_out_channels
      refine ⟨deinterleave_write_length _ _ _ _ _, ?_, ?_⟩
      · intro i hi
        exact deinterleave_write_getD_ge _ _ _ _ _ _ hi
      · intro out2 hlen2 i hi
        have hres2 : process_cpal_interleaved_output_only in_channels
            out_channels cpal_out_channels ring_full engine_out out2
            = (if cpal_out_channels = out_channels then
                (chunk.take (out2.length / cpal_out_channels * out_channels)
                  ++ out2.drop
                    (out2.length / cpal_out_channels * out_channels),
                 false)
              else
                (deinterleave_write out_channels cpal_out_channels
                  (out2.length / cpal_out_channels) chunk out2, false)) := by
          simp only [process_cpal_interleaved_output_only]
          rw [if_neg (hlen2 ▸ h1), if_neg h2, if_neg (hlen2 ▸ h3), h4]
        rw [hres2, if_neg hcc, hlen2]
        exact deinterleave_write_getD_lt _ _ _ _ _ _ hlen2 i hi
          (lt_of_lt_of_le hi htfle)

/-- C5 witness: the amended theorem applied to concrete inputs — an
underrun invocation (4 expected samples never arrive: the slice is zeroed
and "underrun" logged), and a timely invocation on a 5-sample slice (the
first 4 samples written, the 5th untouched). -/
theorem process_cpal_amended_witness :
    process_cpal_interleaved_output_only 0 2 2 false none [9, 9, 9, 9]
      = ([0, 0, 0, 0], true) ∧
    (process_cpal_interleaved_output_only 0 2 2 false
        (some [1, 2, 3, 4]) [9, 9, 9, 9, 7]).1.getD 4 0 = 7 := by
  constructor
  · exact (process_cpal_amended 0 2 2 false none [9, 9, 9, 9]).2.2.2.1
      (by decide) (by decide) (by decide) rfl
  · have h := ((process_cpal_amended 0 2 2 false
        (some [1, 2, 3, 4]) [9, 9, 9, 9, 7]).2.2.2.2 [1, 2, 3, 4]
        (by decide) (by decide) (by decide) rfl (by decide)).2.1 4 (by decide)
    rw [h]
    decide

/-! ## C4 — PluginState transition discipline
(src/graph/plugin_host.rs: `new` lines 250-302, `activate` lines 425-570,
`schedule_deactivate` lines 572-584, `schedule_remove` lines 586-590,
`on_idle` lines 621-730, `impl Drop for PluginInstanceHostAudioThread`
lines 1171-1179.)

The executions the claim quantifies over are sequences of these operations.
Each operation is embedded as a function from the host's observable state
to the updated state plus the list of `(value before, value written)` pairs
it stores to the shared `PluginState`.  The audio-thread sibling is dropped
by the schedule once the main thread has released its strong reference
(`audio_t = false` while the sibling is `alive`); `pend` records that
hand-off.  Activation failure steps all write `InactiveWithError`
(theorem `activate_state_amended`), so an activation outcome collapses to
one `Bool`.

Modelled from the spec: the engine code that invokes `activate` outside
`on_idle` is not among the given sources; per spec §4.4 activation is
attempted on idle plugins, so the `activate` operation here fires only when
the state is `Inactive` or `InactiveWithError` (its in-file guard
`can_activate` additionally rejects `Active`). -/

/-- The observable main-thread state of one `PluginInstanceHost` driving
the shared `PluginState` writes: the shared state value `st`,
`main_thread.is_some()` (`mt`), `audio_thread.is_some()` (`audio_t`),
whether the audio-thread sibling object still exists (`alive`), whether its
drop by the schedule is pending (`pend`), `remove_requested` (`rm`) and
`restarting` (`rst`). -/
structure HostM where
  st : PluginState
  mt : Bool
  audio_t : Bool
  alive : Bool
  pend : Bool
  rm : Bool
  rst : Bool
  deriving DecidableEq, Repr

/-- A single store to the shared `PluginState`: the value it held just
before, and the value written. -/
abbrev StateWrite := PluginState × PluginState

/-- The operations of C4's executions; `ok` is the activation outcome. -/
inductive HostOp : Type
  | opActivate (ok : Bool)
  | opScheduleDeactivate
  | opScheduleRemove
  | opOnIdle (restart process ok : Bool)
  | opAudioThreadDrop
  deriving DecidableEq, Repr

/-- `activate` as a state transformer: guarded by `can_activate`
(`main_thread` present, state not `Active`) and by the spec-modelled call
sites (state `Inactive` or `InactiveWithError`); failure writes
`InactiveWithError`, success writes `Active` and installs the new
audio-thread sibling. -/
def applyActivate (h : HostM) (ok : Bool) : HostM × List StateWrite :=
  if h.mt = true ∧ (h.st = .inactive ∨ h.st = .inactiveWithError) then
    if ok then
      ({ h with st := .active, audio_t := true, alive := true },
       [(h.st, .active)])
    else
      ({ h with st := .inactiveWithError }, [(h.st, .inactiveWithError)])
  else (h, [])

/-- `schedule_deactivate` (plugin_host.rs lines 572-584): a no-op unless
the state is `Active`; otherwise drop the strong reference to the
audio-thread sibling and write `WaitingToDrop`. -/
def applyScheduleDeactivate (h : HostM) : HostM × List StateWrite :=
  if h.st = .active then
    ({ h with audio_t := false, pend := true, st := .waitingToDrop },
     [(.active, .waitingToDrop)])
  else (h, [])

/-- `schedule_remove` (plugin_host.rs lines 586-590): set
`remove_requested`, then `schedule_deactivate`. -/
def applyScheduleRemove (h : HostM) : HostM × List StateWrite :=
  applyScheduleDeactivate { h with rm := true }

/-- `on_idle` (plugin_host.rs lines 621-730) restricted to its
`PluginState` stores: the RESTART branch writes `WaitingToDrop` from any
snapshot other than `DroppedAndReadyToDeactivate`; the
`DroppedAndReadyToDeactivate` branch deactivates, writes `Inactive`, and
re-activates when restarting or PROCESS was requested; the PROCESS branch
activates from `Inactive`/`InactiveWithError` (from `Active` it only sets
the `start_processing` flag, which stores no `PluginState`). -/
def applyOnIdle (h : HostM) (restart process ok : Bool) :
    HostM × List StateWrite :=
  if h.mt = false then (h, [])
  else
    let step1 : HostM × List StateWrite :=
      if restart = true ∧ h.rm = false then
        if h.st ≠ .droppedAndReadyToDeactivate then
          ({ h with rst := true, st := .waitingToDrop },
           [(h.st, .waitingToDrop)])
        else ({ h with rst := true }, [])
      else (h, [])
    let h1 := step1.1
    if h1.st = .droppedAndReadyToDeactivate then
      let h2 : HostM := { h1 with st := .inactive }
      let w2 := step1.2 ++ [(.droppedAndReadyToDeactivate, .inactive)]
      if h1.rm = false ∧ (h1.rst = true ∨ process = true) then
        let step3 := applyActivate h2 ok
        (step3.1, w2 ++ step3.2)
      else (h2, w2)
    else
      if process = true ∧ h1.rm = false ∧ h1.rst = false then
        if h1.st = .active then (h1, step1.2)
        else if h1.st = .inactive ∨ h1.st = .inactiveWithError then
          let step3 := applyActivate h1 ok
          (step3.1, step1.2 ++ step3.2)
        else (h1, step1.2)
      else (h1, step1.2)

/-- The audio-thread sibling's `Drop` (plugin_host.rs lines 1171-1179):
once the main thread has released its reference and the schedule drops the
object, it calls `stop_processing` (no `PluginState` store) and writes
`DroppedAndReadyToDeactivate`. -/
def applyAudioThreadDrop (h : HostM) : HostM × List StateWrite :=
  if h.alive = true ∧ h.pend = true then
    ({ h with
        alive := false
        pend := false
        st := .droppedAndReadyToDeactivate },
     [(h.st, .droppedAndReadyToDeactivate)])
  else (h, [])

/-- The state of a freshly constructed host (`PluginInstanceHost::new`,
`new_graph_in`, `new_graph_out`): the stored shared state is a fresh
`Inactive` one (theorem `pluginInstanceHost_new_stored_state_inactive`),
with no audio-thread sibling and no pending flags. -/
def HostM.init (mt : Bool) : HostM :=
  { st := .inactive
    mt := mt
    audio_t := false
    alive := false
    pend := false
    rm := false
    rst := false }

/-- Dispatch one operation. -/
def applyOp (h : HostM) (op : HostOp) : HostM × List StateWrite :=
  match op with
  | .opActivate ok => applyActivate h ok
  | .opScheduleDeactivate => applyScheduleDeactivate h
  | .opScheduleRemove => applyScheduleRemove h
  | .opOnIdle r p ok => applyOnIdle h r p ok
  | .opAudioThreadDrop => applyAudioThreadDrop h

/-- Run a sequence of operations, collecting every store to the shared
`PluginState` in order. -/
def runTrace (h : HostM) : List HostOp → HostM × List StateWrite
  | [] => (h, [])
  | op :: rest =>
    ((runTrace (applyOp h op).1 rest).1,
     (applyOp h op).2 ++ (runTrace (applyOp h op).1 rest).2)

/-- The claim's transition table: `Inactive → {Active, InactiveWithError}`,
`InactiveWithError → Inactive` (via activate), `Active → WaitingToDrop`,
`WaitingToDrop → DroppedAndReadyToDeactivate`,
`DroppedAndReadyToDeactivate → Inactive`. -/
def claimedTransitionOk : StateWrite → Bool
  | (.inactive, .active) => true
  | (.inactive, .inactiveWithError) => true
  | (.inactiveWithError, .inactive) => true
  | (.active, .waitingToDrop) => true
  | (.waitingToDrop, .droppedAndReadyToDeactivate) => true
  | (.droppedAndReadyToDeactivate, .inactive) => true
  | _ => false

/-- The transition table the code actually obeys: the claimed table plus
`InactiveWithError → Active` (a successful re-activation after a failed
one goes straight to `Active`), `InactiveWithError → InactiveWithError`
(repeated activation failure), `Inactive → WaitingToDrop` /
`InactiveWithError → WaitingToDrop` (a plugin RESTART request arriving
while the plugin is not active still writes `WaitingToDrop`), and the
self-write `WaitingToDrop → WaitingToDrop` (RESTART requested again while
already waiting). -/
def amendedTransitionOk : StateWrite → Bool
  | (.inactive, .active) => true
  | (.inactive, .inactiveWithError) => true
  | (.inactive, .waitingToDrop) => true
  | (.inactiveWithError, .inactive) => true
  | (.inactiveWithError, .active) => true
  | (.inactiveWithError, .inactiveWithError) => true
  | (.inactiveWithError, .waitingToDrop) => true
  | (.active, .waitingToDrop) => true
  | (.waitingToDrop, .droppedAndReadyToDeactivate) => true
  | (.waitingToDrop, .waitingToDrop) => true
  | (.droppedAndReadyToDeactivate, .inactive) => true
  | _ => false

/-- C4 counterexample: starting from a freshly constructed loaded host, an
`on_idle` with a PROCESS request whose activation fails writes
`Inactive → InactiveWithError`, and a second `on_idle` with PROCESS whose
activation succeeds writes `InactiveWithError → Active` — a transition
outside the claimed table, so not every write in every reachable execution
follows it. -/
theorem pluginState_claimed_table_counterexample :
    (runTrace (HostM.init true)
        [.opOnIdle false true false, .opOnIdle false true true]).2
      = [(.inactive, .inactiveWithError), (.inactiveWithError, .active)] ∧
    ((runTrace (HostM.init true)
        [.opOnIdle false true false, .opOnIdle false true true]).2).all
        claimedTransitionOk = false := by
  exact ⟨by decide, by decide⟩

/-- The invariant carrying the reachability argument: a pending
audio-thread drop only ever exists while the shared state is
`WaitingToDrop`. -/
def hostInv (h : HostM) : Bool :=
  !h.pend || (h.st == .waitingToDrop)

/-- Every reachable-state invariant holds initially. -/
theorem hostInv_init (mt : Bool) : hostInv (HostM.init mt) = true := by
  cases mt <;> decide

/-- All five `PluginState` values. -/
def allPluginStates : List PluginState :=
  [.inactive, .inactiveWithError, .active, .waitingToDrop,
   .droppedAndReadyToDeactivate]

/-- Both booleans. -/
def allBools : List Bool :=
  [false, true]

/-- Every `HostM` value. -/
def allHosts : List HostM :=
  allPluginStates.flatMap fun st =>
  allBools.flatMap fun mt =>
  allBools.flatMap fun a1 =>
  allBools.flatMap fun a2 =>
  allBools.flatMap fun a3 =>
  allBools.flatMap fun a4 =>
  allBools.map fun a5 =>
    { st := st, mt := mt, audio_t := a1, alive := a2, pend := a3,
      rm := a4, rst := a5 }

/-- Every `HostOp` value. -/
def allHostOps : List HostOp :=
  [.opScheduleDeactivate, .opScheduleRemove, .opAudioThreadDrop,
   .opActivate false, .opActivate true] ++
  (allBools.flatMap fun r => allBools.flatMap fun q =>
    allBools.map fun ok => HostOp.opOnIdle r q ok)

/-- `allHosts` is exhaustive. -/
theorem mem_allHosts (h : HostM) : h ∈ allHosts := by
  obtain ⟨st, mt, a1, a2, a3, a4, a5⟩ := h
  simp only [allHosts, List.mem_flatMap, List.mem_map]
  refine ⟨st, ?_, mt, ?_, a1, ?_, a2, ?_, a3, ?_, a4, ?_, a5, ?_, rfl⟩
  · cases st <;> decide
  · cases mt <;> decide
  · cases a1 <;> decide
  · cases a2 <;> decide
  · cases a3 <;> decide
  · cases a4 <;> decide
  · cases a5 <;> decide

/-- `allHostOps` is exhaustive. -/
theorem mem_allHostOps (op : HostOp) : op ∈ allHostOps := by
  cases op with
  | opActivate ok => cases ok <;> decide
  | opScheduleDeactivate => decide
  | opScheduleRemove => decide
  | opOnIdle r q ok => cases r <;> cases q <;> cases ok <;> decide
  | opAudioThreadDrop => decide

set_option maxRecDepth 40000 in
/-- Exhaustive check: every operation preserves the invariant. -/
theorem hostInv_step_all :
    (allHosts.all fun h => allHostOps.all fun op =>
      !hostInv h || hostInv (applyOp h op).1) = true := by
  decide

set_option maxRecDepth 40000 in
/-- Exhaustive check: from any invariant state, every store an operation
makes lies in the amended transition table. -/
theorem hostInv_writes_all :
    (allHosts.all fun h => allHostOps.all fun op =>
      !hostInv h || (applyOp h op).2.all amendedTransitionOk) = true := by
  decide

/-- Every operation preserves the invariant. -/
theorem hostInv_step (h : HostM) (op : HostOp) (hh : hostInv h = true) :
    hostInv (applyOp h op).1 = true := by
  have h1 := List.all_eq_true.mp hostInv_step_all h (mem_allHosts h)
  have h2 := List.all_eq_true.mp h1 op (mem_allHostOps op)
  simpa [hh] using h2

/-- From any state satisfying the invariant, every store an operation makes
lies in the amended transition table. -/
theorem hostInv_writes (h : HostM) (op : HostOp) (hh : hostInv h = true) :
    ((applyOp h op).2).all amendedTransitionOk = true := by
  have h1 := List.all_eq_true.mp hostInv_writes_all h (mem_allHosts h)
  have h2 := List.all_eq_true.mp h1 op (mem_allHostOps op)
  simpa [hh] using h2

/-- All stores of a trace from an invariant state are in the amended
table. -/
theorem runTrace_writes_amended (trace : List HostOp) : ∀ h : HostM,
    hostInv h = true →
    ((runTrace h trace).2).all amendedTransitionOk = true := by
  induction trace with
  | nil => intro h _; rfl
  | cons op rest ih =>
    intro h hh
    simp only [runTrace, List.all_append, Bool.and_eq_true]
    exact ⟨hostInv_writes h op hh, ih _ (hostInv_step h op hh)⟩

/-- C4 amended: in every execution of a `PluginInstanceHost` built from
creation, `activate`, `schedule_deactivate`, `schedule_remove`, `on_idle`
steps and the audio-thread sibling's drop, every write to the shared
`PluginState` follows the amended transition table: the claimed table
extended with `InactiveWithError → Active` (successful activate),
`InactiveWithError → InactiveWithError` (repeated failed activate), and
`Inactive/InactiveWithError → WaitingToDrop` (RESTART requested while
inactive); no other transition ever occurs. -/
theorem pluginState_transitions_amended (mt : Bool) (trace : List HostOp) :
    ((runTrace (HostM.init mt) trace).2).all amendedTransitionOk = true :=
  runTrace_writes_amended trace (HostM.init mt) (hostInv_init mt)
